import Mathlib

/-!
Shallow embedding of the subscription / API-access-control service
(`src/main.py`): SQLAlchemy rows become Lean structures, the database
session becomes an explicit `DB` value threaded through each handler, and
`raise HTTPException(...)` becomes an `Except.error` carrying the same
status code and detail string. Each FastAPI handler is a pure function
`DB → ... → Except HTTPError Response × DB`; the returned `DB` is the
committed state (unchanged on every error path, since every `raise`
in the source happens before any mutation / `db.commit()`).
-/

/-- One row of `subscription_plans` (`class SubscriptionPlan(Base)`):
`api_permissions` is the comma-joined string exactly as stored. -/
structure SubscriptionPlan where
  id : Nat
  name : String
  description : Option String
  api_permissions : String
  usage_limit : Int
deriving Repr, DecidableEq

/-- One row of `user_subscriptions` (`class UserSubscription(Base)`). -/
structure UserSubscription where
  id : Nat
  user_id : String
  plan_id : Nat
  usage_count : Int
deriving Repr, DecidableEq

/-- The database state the handlers read and write. The `next_*_id`
counters model the autoincrement primary keys. -/
structure DB where
  plans : List SubscriptionPlan
  subscriptions : List UserSubscription
  next_plan_id : Nat
  next_sub_id : Nat
deriving Repr, DecidableEq

/-- `raise HTTPException(status_code=..., detail=...)`. -/
structure HTTPError where
  status_code : Nat
  detail : String
deriving Repr, DecidableEq

/-- Request body of `POST /plans` (`class PlanCreate(BaseModel)`). -/
structure PlanCreate where
  name : String
  description : Option String
  api_permissions : List String
  usage_limit : Int
deriving Repr, DecidableEq

/-- Request body of `PUT /plans/{plan_id}` (`class PlanUpdate(BaseModel)`). -/
structure PlanUpdate where
  name : Option String
  description : Option String
  api_permissions : Option (List String)
  usage_limit : Option Int
deriving Repr, DecidableEq

/-- SQLAlchemy mutates the single ORM object returned by `.first()`;
this rewrites the first element satisfying `p` and leaves the rest. -/
def updateFirst (p : α → Bool) (f : α → α) : List α → List α
  | [] => []
  | x :: xs => if p x then f x :: xs else x :: updateFirst p f xs

/-- `db.delete(obj)` on the object returned by `.first()`. -/
def removeFirst (p : α → Bool) : List α → List α
  | [] => []
  | x :: xs => if p x then xs else x :: removeFirst p xs

/-- Python truthiness of an `Optional[str]` field: `None` and `""` are falsy. -/
def truthyStr : Option String → Bool
  | none => false
  | some s => s != ""

/-- Python truthiness of an `Optional[List[str]]` field: `None` and `[]` are falsy. -/
def truthyList : Option (List String) → Bool
  | none => false
  | some l => !l.isEmpty

/-- Python truthiness of an `Optional[int]` field: `None` and `0` are falsy. -/
def truthyInt : Option Int → Bool
  | none => false
  | some n => n != 0

/-- Worker for `pySplit`: walks the characters, cutting at each separator. -/
def pySplitAux (sep : Char) : List Char → List Char → List String
  | [], acc => [String.mk acc.reverse]
  | c :: cs, acc =>
    if c = sep then String.mk acc.reverse :: pySplitAux sep cs []
    else pySplitAux sep cs (c :: acc)

/-- Python `s.split(sep)` for a one-character separator, as used by
`plan.api_permissions.split(",")`: in particular `"".split(",")` is
`[""]`, a list holding the empty string, never the empty list. -/
def pySplit (s : String) (sep : Char) : List String :=
  pySplitAux sep s.data []

/-- `POST /plans` — `create_plan` (src/main.py lines 60-77). -/
def create_plan (db : DB) (plan : PlanCreate) : Except HTTPError Nat × DB :=
  match db.plans.find? (fun p => p.name == plan.name) with
  | some _ => (.error ⟨400, "Plan with this name already exists"⟩, db)
  | none =>
    let new_plan : SubscriptionPlan :=
      { id := db.next_plan_id
        name := plan.name
        description := plan.description
        api_permissions := String.intercalate "," plan.api_permissions
        usage_limit := plan.usage_limit }
    (.ok new_plan.id,
     { db with plans := db.plans ++ [new_plan], next_plan_id := db.next_plan_id + 1 })

/-- `PUT /subscriptions/{user_id}` — `update_subscription`
(src/main.py lines 80-88): sets `plan_id` only, with no check that the
target plan exists and no touch of `usage_count`. -/
def update_subscription (db : DB) (user_id : String) (plan_id : Nat) :
    Except HTTPError String × DB :=
  match db.subscriptions.find? (fun s => s.user_id == user_id) with
  | none => (.error ⟨404, "Subscription not found"⟩, db)
  | some _ =>
    let subs := updateFirst (fun s => s.user_id == user_id)
      (fun s => { s with plan_id := plan_id }) db.subscriptions
    (.ok s!"Subscription for user {user_id} updated to plan {plan_id}",
     { db with subscriptions := subs })

/-- `PUT /plans/{plan_id}` — `update_plan` (src/main.py lines 93-109):
each field is guarded by Python truthiness (`if plan.name:` ...), so an
absent, empty or zero field leaves the stored value alone. -/
def update_plan (db : DB) (plan_id : Nat) (plan : PlanUpdate) :
    Except HTTPError String × DB :=
  match db.plans.find? (fun p => p.id == plan_id) with
  | none => (.error ⟨404, "Plan not found"⟩, db)
  | some _ =>
    let apply_fields := fun (existing_plan : SubscriptionPlan) =>
      let e := if truthyStr plan.name then
          { existing_plan with name := plan.name.getD existing_plan.name }
        else existing_plan
      let e := if truthyStr plan.description then
          { e with description := plan.description }
        else e
      let e := if truthyList plan.api_permissions then
          { e with api_permissions := String.intercalate "," (plan.api_permissions.getD []) }
        else e
      let e := if truthyInt plan.usage_limit then
          { e with usage_limit := plan.usage_limit.getD e.usage_limit }
        else e
      e
    (.ok "Plan updated successfully",
     { db with plans := updateFirst (fun p => p.id == plan_id) apply_fields db.plans })

/-- `DELETE /plans/{plan_id}` — `delete_plan` (src/main.py lines 112-120):
deletes unconditionally; there is no check that subscriptions still
reference the plan. -/
def delete_plan (db : DB) (plan_id : Nat) : Except HTTPError String × DB :=
  match db.plans.find? (fun p => p.id == plan_id) with
  | none => (.error ⟨404, "Plan not found"⟩, db)
  | some _ =>
    (.ok "Plan deleted successfully",
     { db with plans := removeFirst (fun p => p.id == plan_id) db.plans })

/-- `POST /subscriptions` — `subscribe_to_plan` (src/main.py lines 122-130):
rejects a second subscription for the same user, but performs no check
that `plan_id` refers to a stored plan. -/
def subscribe_to_plan (db : DB) (user_id : String) (plan_id : Nat) :
    Except HTTPError String × DB :=
  match db.subscriptions.find? (fun s => s.user_id == user_id) with
  | some _ => (.error ⟨400, "User already has a subscription."⟩, db)
  | none =>
    let new_subscription : UserSubscription :=
      { id := db.next_sub_id, user_id := user_id, plan_id := plan_id, usage_count := 0 }
    (.ok s!"User {user_id} subscribed to plan {plan_id}",
     { db with
        subscriptions := db.subscriptions ++ [new_subscription]
        next_sub_id := db.next_sub_id + 1 })

/-- `GET /access/{user_id}/{api_request}` — `check_access`
(src/main.py lines 177-192). The order is literal: subscription lookup,
then membership of `api_request` in `plan.api_permissions.split(",")`,
then the quota comparison `usage_count >= usage_limit`, and only then the
increment and commit. A dangling `plan_id` makes the Python attribute
access on `user_subscription.plan` raise, surfaced as a 500. (The source
wraps the capability name in single quotes inside the 403 detail; the
quotes are elided here.) -/
def check_access (db : DB) (user_id : String) (api_request : String) :
    Except HTTPError String × DB :=
  match db.subscriptions.find? (fun s => s.user_id == user_id) with
  | none => (.error ⟨404, s!"User {user_id} not found or has no subscription."⟩, db)
  | some user_subscription =>
    match db.plans.find? (fun p => p.id == user_subscription.plan_id) with
    | none => (.error ⟨500, "Internal Server Error"⟩, db)
    | some plan =>
      if !((pySplit plan.api_permissions ',').contains api_request) then
        (.error ⟨403, s!"Access denied: API {api_request} not allowed in the plan."⟩, db)
      else if user_subscription.usage_count ≥ plan.usage_limit then
        (.error ⟨403, "Access denied: Usage limit exceeded."⟩, db)
      else
        let subs := updateFirst (fun s => s.user_id == user_id)
          (fun s => { s with usage_count := s.usage_count + 1 }) db.subscriptions
        (.ok "Access granted", { db with subscriptions := subs })

/-- `POST /usage/{userId}` — `track_usage` (src/main.py lines 276-283):
unconditional increment for any existing subscription; no capability
check, no comparison against `usage_limit`. Returns the message together
with the reported `usage_count` after the increment. -/
def track_usage (db : DB) (userId : String) : Except HTTPError (String × Int) × DB :=
  match db.subscriptions.find? (fun s => s.user_id == userId) with
  | none => (.error ⟨404, "User subscription not found"⟩, db)
  | some user_subscription =>
    let subs := updateFirst (fun s => s.user_id == userId)
      (fun s => { s with usage_count := s.usage_count + 1 }) db.subscriptions
    (.ok ("API usage tracked", user_subscription.usage_count + 1),
     { db with subscriptions := subs })

/-- The state after one `check_access` call, keeping the old state when
the call was denied (a denied call commits nothing). -/
def runAccess (db : DB) (uid c : String) : DB :=
  (check_access db uid c).2

/-- The state after `n` consecutive `check_access` calls for the same
user and capability. -/
def iterAccess (db : DB) (uid c : String) : Nat → DB
  | 0 => db
  | n + 1 => runAccess (iterAccess db uid c n) uid c

example : (pySplit "" ',') = [""] := by decide
example : (pySplit "service1,service2" ',') = ["service1", "service2"] := by decide
example : (String.intercalate "," ([] : List String)) = "" := by decide

/-! ### Helper lemmas about the list/session primitives -/

theorem updateFirst_find? (p : α → Bool) (f : α → α) (l : List α) (x : α)
    (hl : l.find? p = some x) (hf : p (f x) = true) :
    (updateFirst p f l).find? p = some (f x) := by
  induction l with
  | nil => simp [List.find?] at hl
  | cons a as ih =>
    by_cases h : p a = true
    · rw [List.find?_cons_of_pos _ h] at hl
      injection hl with hax
      subst hax
      simp [updateFirst, h, List.find?_cons_of_pos _ hf]
    · rw [List.find?_cons_of_neg _ h] at hl
      simp [updateFirst, h, List.find?_cons_of_neg _ h, ih hl]

theorem updateFirst_id (p : α → Bool) (f : α → α) (l : List α)
    (hf : ∀ x, f x = x) : updateFirst p f l = l := by
  induction l with
  | nil => rfl
  | cons a as ih => simp [updateFirst, hf a, ih]

/-! ### The two outcomes of `check_access` on a resolvable subscription -/

/-- The committed state of a granted access: the caller's subscription
row with `usage_count` incremented by one, everything else untouched. -/
def bumpUsage (db : DB) (uid : String) : DB :=
  let subs := updateFirst (fun s => s.user_id == uid)
    (fun s => { s with usage_count := s.usage_count + 1 }) db.subscriptions
  { db with subscriptions := subs }

/-- When the capability is permitted and quota remains, `check_access`
grants and commits exactly one increment on the caller's subscription. -/
theorem check_access_grant_eq (db : DB) (uid c : String) (sub : UserSubscription)
    (pl : SubscriptionPlan)
    (hs : db.subscriptions.find? (fun s => s.user_id == uid) = some sub)
    (hp : db.plans.find? (fun p => p.id == sub.plan_id) = some pl)
    (hc : (pySplit pl.api_permissions ',').contains c = true)
    (hlt : sub.usage_count < pl.usage_limit) :
    check_access db uid c = (.ok "Access granted", bumpUsage db uid) := by
  have hmem : c ∈ pySplit pl.api_permissions ',' := by simpa using hc
  unfold check_access bumpUsage
  rw [hs]
  simp only [hp]
  simp [hmem, not_le.mpr hlt]

/-- When the capability is permitted but the quota is exhausted
(`usage_count >= usage_limit`), `check_access` denies with the usage-limit
message and commits nothing. -/
theorem check_access_quota_eq (db : DB) (uid c : String) (sub : UserSubscription)
    (pl : SubscriptionPlan)
    (hs : db.subscriptions.find? (fun s => s.user_id == uid) = some sub)
    (hp : db.plans.find? (fun p => p.id == sub.plan_id) = some pl)
    (hc : (pySplit pl.api_permissions ',').contains c = true)
    (hge : pl.usage_limit ≤ sub.usage_count) :
    check_access db uid c =
      (.error ⟨403, "Access denied: Usage limit exceeded."⟩, db) := by
  have hmem : c ∈ pySplit pl.api_permissions ',' := by simpa using hc
  unfold check_access
  rw [hs]
  simp only [hp]
  simp [hmem, hge]

/-- The running configuration behind a sequence of `check_access` calls:
the user's subscription resolves, carries usage count `k`, points at plan
`pl`, and `pl` permits capability `c`. -/
def Good (db : DB) (uid c : String) (pl : SubscriptionPlan) (k : Int) : Prop :=
  ∃ sub : UserSubscription,
    db.subscriptions.find? (fun s => s.user_id == uid) = some sub ∧
    sub.usage_count = k ∧
    db.plans.find? (fun p => p.id == sub.plan_id) = some pl ∧
    (pySplit pl.api_permissions ',').contains c = true

/-- Below the ceiling, one `check_access` call grants and moves the
configuration from count `k` to count `k + 1`. -/
theorem good_grant (db : DB) (uid c : String) (pl : SubscriptionPlan) (k : Int)
    (hg : Good db uid c pl k) (hlt : k < pl.usage_limit) :
    (check_access db uid c).1 = .ok "Access granted" ∧
    Good (runAccess db uid c) uid c pl (k + 1) := by
  obtain ⟨sub, hs, hk, hp, hc⟩ := hg
  have heq := check_access_grant_eq db uid c sub pl hs hp hc (by rw [hk]; exact hlt)
  refine ⟨by rw [heq], ?_⟩
  unfold runAccess
  rw [heq]
  have hpf := List.find?_some hs
  refine ⟨{ sub with usage_count := sub.usage_count + 1 }, ?_, ?_, hp, hc⟩
  · exact updateFirst_find? _ _ _ _ hs hpf
  · simp [hk]

/-- At or above the ceiling, one `check_access` call fails with the
usage-limit message. -/
theorem good_quota (db : DB) (uid c : String) (pl : SubscriptionPlan) (k : Int)
    (hg : Good db uid c pl k) (hge : pl.usage_limit ≤ k) :
    check_access db uid c = (.error ⟨403, "Access denied: Usage limit exceeded."⟩, db) := by
  obtain ⟨sub, hs, hk, hp, hc⟩ := hg
  exact check_access_quota_eq db uid c sub pl hs hp hc (by rw [hk]; exact hge)

/-! ### Concrete states used by the witnesses -/

/-- A plan permitting exactly `service1` with a usage ceiling of 2
(the example scenario of the spec). -/
def planBasic : SubscriptionPlan :=
  { id := 1, name := "basic", description := none
    api_permissions := "service1", usage_limit := 2 }

/-- A fresh subscription of user `u1` to `planBasic`. -/
def subU1 : UserSubscription :=
  { id := 1, user_id := "u1", plan_id := 1, usage_count := 0 }

/-- Database with `planBasic` and the fresh subscription of `u1`. -/
def dbQuota : DB :=
  { plans := [planBasic], subscriptions := [subU1], next_plan_id := 2, next_sub_id := 2 }

/-! ### The claims -/

/-- C1: Quota boundary — from a fresh subscription (`usage_count = 0`) to
a plan with `usage_ceiling = N`, the first `N` consecutive `check_access`
calls for a permitted capability each return Granted (the configuration
after `i` calls carries `usage_count = i`, so each call increments by 1),
and the `(N+1)`-th call fails with the quota-exceeded error, because the
quota comparison is `usage_count >= usage_limit`. -/
theorem quota_boundary (db : DB) (uid c : String) (pl : SubscriptionPlan) (N : Nat)
    (hN : pl.usage_limit = (N : Int)) (h0 : Good db uid c pl 0) :
    (∀ i, i < N → (check_access (iterAccess db uid c i) uid c).1 = .ok "Access granted") ∧
    (∀ i, i ≤ N → Good (iterAccess db uid c i) uid c pl (i : Int)) ∧
    (check_access (iterAccess db uid c N) uid c).1 =
      .error ⟨403, "Access denied: Usage limit exceeded."⟩ := by
  have inv : ∀ i, i ≤ N → Good (iterAccess db uid c i) uid c pl (i : Int) := by
    intro i
    induction i with
    | zero => intro _; exact h0
    | succ i ih =>
      intro hle
      have hlt : (i : Int) < pl.usage_limit := by
        rw [hN]
        exact_mod_cast Nat.lt_of_succ_le hle
      have hstep := good_grant _ uid c pl _ (ih (Nat.le_of_succ_le hle)) hlt
      have hcast : ((i : Int) + 1) = ((i + 1 : Nat) : Int) := by push_cast; ring
      rw [hcast] at hstep
      exact hstep.2
  refine ⟨?_, inv, ?_⟩
  · intro i hi
    have hlt : (i : Int) < pl.usage_limit := by rw [hN]; exact_mod_cast hi
    exact (good_grant _ uid c pl _ (inv i (Nat.le_of_lt hi)) hlt).1
  · have hquota := good_quota _ uid c pl _ (inv N (Nat.le_refl N)) (le_of_eq hN)
    rw [hquota]

/-- Witness for C1 at the spec's example scenario: plan `basic` with
ceiling 2, fresh subscriber `u1`, capability `service1`. -/
theorem quota_boundary_witness :
    (∀ i, i < 2 →
      (check_access (iterAccess dbQuota "u1" "service1" i) "u1" "service1").1 =
        .ok "Access granted") ∧
    (∀ i, i ≤ 2 →
      Good (iterAccess dbQuota "u1" "service1" i) "u1" "service1" planBasic (i : Int)) ∧
    (check_access (iterAccess dbQuota "u1" "service1" 2) "u1" "service1").1 =
      .error ⟨403, "Access denied: Usage limit exceeded."⟩ :=
  quota_boundary dbQuota "u1" "service1" planBasic 2 (by decide)
    ⟨subU1, by decide, by decide, by decide, by decide⟩

/-- Database where `u1` holds an exhausted subscription
(`usage_count = 2 = usage_limit`) to `planBasic`. -/
def dbGate : DB :=
  { plans := [planBasic]
    subscriptions := [{ id := 1, user_id := "u1", plan_id := 1, usage_count := 2 }]
    next_plan_id := 2, next_sub_id := 2 }

/-- C2: Permission gate precedes quota — with the quota already exhausted
(`usage_count >= usage_limit`) and a capability outside the plan's
permitted set, `check_access` fails with the capability-denied error, not
the quota error, and the state is unchanged: the membership test runs
before the quota comparison. -/
theorem permission_gate_precedes_quota (db : DB) (uid c : String)
    (sub : UserSubscription) (pl : SubscriptionPlan)
    (hs : db.subscriptions.find? (fun s => s.user_id == uid) = some sub)
    (hp : db.plans.find? (fun p => p.id == sub.plan_id) = some pl)
    (_hq : sub.usage_count ≥ pl.usage_limit)
    (hc : (pySplit pl.api_permissions ',').contains c = false) :
    check_access db uid c =
      (.error ⟨403, s!"Access denied: API {c} not allowed in the plan."⟩, db) := by
  have hmem : c ∉ pySplit pl.api_permissions ',' := by simpa using hc
  unfold check_access
  rw [hs]
  simp only [hp]
  simp [hmem]

/-- Witness for C2: `u1` is exhausted on plan `basic` and asks for
`service2`, which the plan does not permit: capability denial wins. -/
theorem permission_gate_precedes_quota_witness :
    check_access dbGate "u1" "service2" =
      (.error ⟨403, "Access denied: API service2 not allowed in the plan."⟩, dbGate) :=
  permission_gate_precedes_quota dbGate "u1" "service2"
    { id := 1, user_id := "u1", plan_id := 1, usage_count := 2 } planBasic
    (by decide) (by decide) (by decide) (by decide)

/-- C5: Atomicity of denial — whenever `check_access` returns an error
(missing subscription, capability denied, or quota exceeded), the
committed state equals the input state: every `raise` in the handler
happens before the single increment and the `db.commit()`. -/
theorem denial_no_mutation (db : DB) (uid c : String) (e : HTTPError)
    (h : (check_access db uid c).1 = .error e) : (check_access db uid c).2 = db := by
  unfold check_access at h ⊢
  cases hfs : db.subscriptions.find? (fun s => s.user_id == uid) with
  | none => simp [hfs]
  | some sub =>
    cases hfp : db.plans.find? (fun p => p.id == sub.plan_id) with
    | none => simp [hfs, hfp]
    | some pl =>
      by_cases hc : c ∈ pySplit pl.api_permissions ','
      · by_cases hq : sub.usage_count ≥ pl.usage_limit
        · simp [hfs, hfp, hc, hq]
        · rw [hfs] at h
          simp [hfp, hc, hq] at h
      · simp [hfs, hfp, hc]

/-- Empty database: no plans, no subscriptions. -/
def dbEmpty : DB := { plans := [], subscriptions := [], next_plan_id := 1, next_sub_id := 1 }

/-- Witness for C5: a user with no subscription is denied with the 404
error and the database is unchanged. -/
theorem denial_no_mutation_witness :
    (check_access dbEmpty "u1" "service1").1 =
      .error ⟨404, "User u1 not found or has no subscription."⟩ ∧
    (check_access dbEmpty "u1" "service1").2 = dbEmpty :=
  ⟨rfl,
   denial_no_mutation dbEmpty "u1" "service1"
     ⟨404, "User u1 not found or has no subscription."⟩ rfl⟩

/-- Database where plan 1 exists and `u1` holds a live subscription
referencing it (with some accumulated usage). -/
def dbInUse : DB :=
  { plans := [planBasic]
    subscriptions := [{ id := 1, user_id := "u1", plan_id := 1, usage_count := 3 }]
    next_plan_id := 2, next_sub_id := 2 }

/-- C3 demonstration: `delete_plan` deletes a plan that a live
subscription still references — it reports success and removes the plan,
leaving the subscription dangling, instead of failing with `PlanInUse`.
(The source has no reference check at all; against a foreign-key-enforcing
store the commit would abort with an integrity error, still not the
`PlanInUse` rejection the spec mandates.) -/
theorem delete_plan_in_use_succeeds :
    (dbInUse.subscriptions.any (fun s => s.plan_id == 1)) = true ∧
    delete_plan dbInUse 1 =
      (.ok "Plan deleted successfully",
       { plans := []
         subscriptions := [{ id := 1, user_id := "u1", plan_id := 1, usage_count := 3 }]
         next_plan_id := 2, next_sub_id := 2 }) :=
  ⟨rfl, rfl⟩

/-- C4 counter-demonstration: `subscribe_to_plan` performs no
plan-existence check — on an empty database, subscribing `u1` to the
nonexistent plan 5 reports success and creates the subscription record
with the dangling `plan_id`, instead of failing with `PlanNotFound` and
creating nothing. -/
theorem subscribe_missing_plan_creates :
    (dbEmpty.plans.find? (fun p => p.id == 5) = none) ∧
    subscribe_to_plan dbEmpty "u1" 5 =
      (.ok "User u1 subscribed to plan 5",
       { plans := []
         subscriptions := [{ id := 1, user_id := "u1", plan_id := 5, usage_count := 0 }]
         next_plan_id := 1, next_sub_id := 2 }) :=
  ⟨rfl, rfl⟩

/-- C7 counter-demonstration: `update_subscription` performs no
plan-existence check — reassigning `u1` to the nonexistent plan 2 reports
success and rewrites `plan_id` to the dangling value, instead of failing
with `PlanNotFound` and leaving the subscription unchanged. -/
theorem reassign_missing_plan_succeeds :
    (dbInUse.plans.find? (fun p => p.id == 2) = none) ∧
    update_subscription dbInUse "u1" 2 =
      (.ok "Subscription for user u1 updated to plan 2",
       { plans := [planBasic]
         subscriptions := [{ id := 1, user_id := "u1", plan_id := 2, usage_count := 3 }]
         next_plan_id := 2, next_sub_id := 2 }) :=
  ⟨rfl, rfl⟩

/-- The committed state of a successful plan reassignment: the caller's
subscription row with `plan_id` rewritten, everything else untouched. -/
def reassignState (db : DB) (uid : String) (pid : Nat) : DB :=
  let subs := updateFirst (fun s => s.user_id == uid)
    (fun s => { s with plan_id := pid }) db.subscriptions
  { db with subscriptions := subs }

/-- C6: Reassignment preserves usage — for a subscribed user and an
existing target plan, `update_subscription` rewrites only `plan_id`
(the stored row keeps its `usage_count`), leaves the plan catalog alone,
and a subsequent `check_access` evaluates the new plan's permitted set
and ceiling against the carried-over count. -/
theorem reassign_preserves_usage (db : DB) (uid : String) (pid : Nat)
    (sub : UserSubscription) (pl : SubscriptionPlan)
    (hs : db.subscriptions.find? (fun s => s.user_id == uid) = some sub)
    (hp : db.plans.find? (fun p => p.id == pid) = some pl) :
    update_subscription db uid pid =
      (.ok s!"Subscription for user {uid} updated to plan {pid}", reassignState db uid pid) ∧
    (reassignState db uid pid).plans = db.plans ∧
    (reassignState db uid pid).subscriptions.find? (fun s => s.user_id == uid) =
      some { sub with plan_id := pid } ∧
    (∀ c, (pySplit pl.api_permissions ',').contains c = true →
      sub.usage_count < pl.usage_limit →
      (check_access (reassignState db uid pid) uid c).1 = .ok "Access granted") := by
  have hpf := List.find?_some hs
  have hfind : (reassignState db uid pid).subscriptions.find? (fun s => s.user_id == uid) =
      some { sub with plan_id := pid } :=
    updateFirst_find? _ _ _ _ hs hpf
  refine ⟨?_, rfl, hfind, ?_⟩
  · unfold update_subscription reassignState
    rw [hs]
  · intro c hc hlt
    have hgrant := check_access_grant_eq (reassignState db uid pid) uid c
      { sub with plan_id := pid } pl hfind hp hc hlt
    rw [hgrant]

/-- A second plan, permitting `service2` and `service3` with ceiling 5. -/
def planPro : SubscriptionPlan :=
  { id := 2, name := "pro", description := some "bigger"
    api_permissions := "service2,service3", usage_limit := 5 }

/-- Database with two plans where `u1` subscribes to plan 1 and has
already used one access. -/
def dbTwoPlans : DB :=
  { plans := [planBasic, planPro]
    subscriptions := [{ id := 1, user_id := "u1", plan_id := 1, usage_count := 1 }]
    next_plan_id := 3, next_sub_id := 2 }

/-- Witness for C6: reassigning `u1` from plan 1 to plan 2 keeps
`usage_count = 1` and the next access is judged against plan 2. -/
theorem reassign_preserves_usage_witness :
    update_subscription dbTwoPlans "u1" 2 =
      (.ok "Subscription for user u1 updated to plan 2", reassignState dbTwoPlans "u1" 2) ∧
    (reassignState dbTwoPlans "u1" 2).plans = dbTwoPlans.plans ∧
    (reassignState dbTwoPlans "u1" 2).subscriptions.find? (fun s => s.user_id == "u1") =
      some { id := 1, user_id := "u1", plan_id := 2, usage_count := 1 } ∧
    (∀ c, (pySplit planPro.api_permissions ',').contains c = true →
      (1 : Int) < planPro.usage_limit →
      (check_access (reassignState dbTwoPlans "u1" 2) "u1" c).1 = .ok "Access granted") :=
  reassign_preserves_usage dbTwoPlans "u1" 2
    { id := 1, user_id := "u1", plan_id := 1, usage_count := 1 } planPro
    (by decide) (by decide)

/-- The all-falsy update payload: supplied-but-empty strings and list,
and a zero ceiling. -/
def falsyUpdate : PlanUpdate :=
  { name := some "", description := some ""
    api_permissions := some [], usage_limit := some 0 }

/-- The all-absent update payload: every field omitted. -/
def emptyUpdate : PlanUpdate :=
  { name := none, description := none, api_permissions := none, usage_limit := none }

/-- C8: Falsy-means-unchanged patch semantics — on an existing plan, an
update payload carrying the empty string for `name` and `description`,
the empty permitted-capabilities list, and a zero `usage_limit` reports
success and leaves the stored plan (and the whole database) unchanged,
exactly as the all-omitted payload does. -/
theorem falsy_update_unchanged (db : DB) (pid : Nat) (pl : SubscriptionPlan)
    (hp : db.plans.find? (fun p => p.id == pid) = some pl) :
    update_plan db pid falsyUpdate = (.ok "Plan updated successfully", db) ∧
    update_plan db pid falsyUpdate = update_plan db pid emptyUpdate := by
  have h1 : update_plan db pid falsyUpdate = (.ok "Plan updated successfully", db) := by
    unfold update_plan
    rw [hp]
    simp [falsyUpdate, truthyStr, truthyList, truthyInt, updateFirst_id]
  have h2 : update_plan db pid emptyUpdate = (.ok "Plan updated successfully", db) := by
    unfold update_plan
    rw [hp]
    simp [emptyUpdate, truthyStr, truthyList, truthyInt, updateFirst_id]
  exact ⟨h1, h1.trans h2.symm⟩

/-- Witness for C8: patching plan 1 of `dbQuota` with the all-falsy
payload changes nothing, exactly like the all-absent payload. -/
theorem falsy_update_unchanged_witness :
    update_plan dbQuota 1 falsyUpdate = (.ok "Plan updated successfully", dbQuota) ∧
    update_plan dbQuota 1 falsyUpdate = update_plan dbQuota 1 emptyUpdate :=
  falsy_update_unchanged dbQuota 1 planBasic (by decide)

/-- C9: Quota bypass via usage tracking — for any user with a
subscription, `track_usage` increments `usage_count` by one with no
capability check and no comparison against `usage_limit`: even when the
quota is already exhausted it still reports success and drives the count
strictly above the plan's ceiling, without any granted `check_access`. -/
theorem track_usage_bypasses_quota (db : DB) (uid : String)
    (sub : UserSubscription) (pl : SubscriptionPlan)
    (hs : db.subscriptions.find? (fun s => s.user_id == uid) = some sub)
    (_hp : db.plans.find? (fun p => p.id == sub.plan_id) = some pl)
    (hq : sub.usage_count ≥ pl.usage_limit) :
    track_usage db uid = (.ok ("API usage tracked", sub.usage_count + 1), bumpUsage db uid) ∧
    (bumpUsage db uid).subscriptions.find? (fun s => s.user_id == uid) =
      some { sub with usage_count := sub.usage_count + 1 } ∧
    (bumpUsage db uid).plans = db.plans ∧
    sub.usage_count + 1 > pl.usage_limit := by
  have hpf := List.find?_some hs
  refine ⟨?_, updateFirst_find? _ _ _ _ hs hpf, rfl, by omega⟩
  unfold track_usage bumpUsage
  rw [hs]

/-- Witness for C9: `u1` is already at the ceiling (2 of 2) on plan
`basic`; `track_usage` still succeeds and reports count 3 > 2. -/
theorem track_usage_bypasses_quota_witness :
    track_usage dbGate "u1" = (.ok ("API usage tracked", 3), bumpUsage dbGate "u1") ∧
    (bumpUsage dbGate "u1").subscriptions.find? (fun s => s.user_id == "u1") =
      some { id := 1, user_id := "u1", plan_id := 1, usage_count := 3 } ∧
    (bumpUsage dbGate "u1").plans = dbGate.plans ∧
    (3 : Int) > planBasic.usage_limit :=
  track_usage_bypasses_quota dbGate "u1"
    { id := 1, user_id := "u1", plan_id := 1, usage_count := 2 } planBasic
    (by decide) (by decide) (by decide)

/-- C10: Empty-capability-set edge case — a plan created from an empty
`api_permissions` list is stored with the empty string (`",".join([])`),
and because membership is tested against `"".split(",") = [""]`, a
subscriber of such a plan asking for the empty-string capability passes
the permission check and is granted whenever quota remains. -/
theorem empty_capability_list_edge (db : DB) (pc : PlanCreate)
    (hperms : pc.api_permissions = [])
    (hdup : db.plans.find? (fun p => p.name == pc.name) = none)
    (db2 : DB) (uid : String) (sub : UserSubscription) (pl : SubscriptionPlan)
    (hs : db2.subscriptions.find? (fun s => s.user_id == uid) = some sub)
    (hp : db2.plans.find? (fun p => p.id == sub.plan_id) = some pl)
    (hpl : pl.api_permissions = "")
    (hlt : sub.usage_count < pl.usage_limit) :
    (create_plan db pc).1 = .ok db.next_plan_id ∧
    (create_plan db pc).2.plans = db.plans ++
      [{ id := db.next_plan_id, name := pc.name, description := pc.description
         api_permissions := "", usage_limit := pc.usage_limit }] ∧
    check_access db2 uid "" = (.ok "Access granted", bumpUsage db2 uid) := by
  refine ⟨?_, ?_, ?_⟩
  · unfold create_plan
    rw [hdup]
  · unfold create_plan
    rw [hdup, hperms]
    rfl
  · exact check_access_grant_eq db2 uid "" sub pl hs hp (by rw [hpl]; decide) hlt

/-- A stored plan whose permitted-capabilities string is empty, with a
fresh subscriber `u2`. -/
def planEmptyPerms : SubscriptionPlan :=
  { id := 1, name := "empty", description := none, api_permissions := "", usage_limit := 1 }

/-- Database holding `planEmptyPerms` and a fresh subscription of `u2`. -/
def dbEmptyPerms : DB :=
  { plans := [planEmptyPerms]
    subscriptions := [{ id := 1, user_id := "u2", plan_id := 1, usage_count := 0 }]
    next_plan_id := 2, next_sub_id := 2 }

/-- Witness for C10: creating plan `empty` with no capabilities on an
empty database stores `""`, and `u2` subscribed to such a plan is granted
the empty-string capability. -/
theorem empty_capability_list_edge_witness :
    (create_plan dbEmpty
      { name := "empty", description := none, api_permissions := [], usage_limit := 1 }).1 =
      .ok dbEmpty.next_plan_id ∧
    (create_plan dbEmpty
      { name := "empty", description := none, api_permissions := [], usage_limit := 1 }).2.plans =
      dbEmpty.plans ++
        [{ id := dbEmpty.next_plan_id, name := "empty", description := none
           api_permissions := "", usage_limit := 1 }] ∧
    check_access dbEmptyPerms "u2" "" = (.ok "Access granted", bumpUsage dbEmptyPerms "u2") :=
  empty_capability_list_edge dbEmpty
    { name := "empty", description := none, api_permissions := [], usage_limit := 1 }
    rfl (by decide) dbEmptyPerms "u2"
    { id := 1, user_id := "u2", plan_id := 1, usage_count := 0 } planEmptyPerms
    (by decide) (by decide) (by decide) (by decide)
